import Mathlib

/-!
Verification development for the brasa market-data acquisition pipeline
(`brasa/downloaders/downloaders.py`, `brasa/readers/helpers.py`).

The Python source is shallowly embedded: pure helpers become Lean
functions, network and filesystem effects become explicit inputs
(the HTTP response is passed as a value), Python exceptions become
`Except String`, and heterogeneous tuple returns become an inductive
result type. Third-party libraries at the boundary (HTTP client, zip
reader, calendar) are modelled at the level of their documented
contracts. Repository code that is referenced but not present in the
given source (the downloader factory, `download_url`, `get_fname`,
the cache layer and the format parsers) is modelled from the
specification; each such definition carries a doc comment saying so.
-/

/-! ## Civil-calendar arithmetic

Models the date arithmetic of the Python standard library
(`datetime.date`, `datetime.timedelta`): a proleptic Gregorian
calendar. Days-from-civil conversion follows the standard era-based
algorithm. -/

/-- Is `y` a Gregorian leap year (as Python `calendar.isleap`). -/
def isLeapYear (y : Int) : Bool :=
  (y % 4 == 0 && y % 100 != 0) || y % 400 == 0

/-- Number of days in month `m` (1-12) of year `y` (Python `calendar.monthrange`). -/
def daysInMonth (y : Int) (m : Nat) : Nat :=
  if m == 2 then (if isLeapYear y then 29 else 28)
  else if m == 4 || m == 6 || m == 9 || m == 11 then 30
  else 31

/-- A Python `datetime.date`: year, month (1-12), day (1-31). -/
structure PyDate where
  year : Int
  month : Nat
  day : Nat
deriving DecidableEq, Repr

/-- A Python naive `datetime.datetime`: a civil date plus wall-clock time.
Microseconds are not modelled (they are zero in every header parse). -/
structure PyDateTime where
  year : Int
  month : Nat
  day : Nat
  hour : Nat
  minute : Nat
  second : Nat
deriving DecidableEq, Repr

/-- Days since the epoch 1970-01-01 of the civil date `(y, m, d)`
(the standard era-based days-from-civil algorithm, as used by every
mainstream calendar implementation including the CPython ordinal dates). -/
def daysFromCivil (y : Int) (m d : Nat) : Int :=
  let y : Int := y - (if m ≤ 2 then 1 else 0)
  let era : Int := (if 0 ≤ y then y else y - 399) / 400
  let yoe : Int := y - era * 400
  let mp : Int := if 2 < m then (m : Int) - 3 else (m : Int) + 9
  let doy : Int := (153 * mp + 2) / 5 + d - 1
  let doe : Int := yoe * 365 + yoe / 4 - yoe / 100 + doy
  era * 146097 + doe - 719468

/-- Inverse of `daysFromCivil`: the civil date of epoch day `z`. -/
def civilFromDays (z : Int) : Int × Nat × Nat :=
  let z : Int := z + 719468
  let era : Int := (if 0 ≤ z then z else z - 146096) / 146097
  let doe : Int := z - era * 146097
  let yoe : Int := (doe - doe / 1460 + doe / 36524 - doe / 146096) / 365
  let y : Int := yoe + era * 400
  let doy : Int := doe - (365 * yoe + yoe / 4 - yoe / 100)
  let mp : Int := (5 * doy + 2) / 153
  let d : Int := doy - (153 * mp + 2) / 5 + 1
  let m : Int := if mp < 10 then mp + 3 else mp - 9
  (y + (if m ≤ 2 then 1 else 0), m.toNat, d.toNat)

/-- Seconds since the epoch of a naive datetime read as UTC. -/
def PyDateTime.epochSeconds (t : PyDateTime) : Int :=
  daysFromCivil t.year t.month t.day * 86400
    + (t.hour : Int) * 3600 + (t.minute : Int) * 60 + (t.second : Int)

/-- The naive datetime whose UTC reading is `s` seconds since the epoch. -/
def pyDateTimeOfEpochSeconds (s : Int) : PyDateTime :=
  let days : Int := s.fdiv 86400
  let rem : Nat := (s.fmod 86400).toNat
  let c := civilFromDays days
  { year := c.1, month := c.2.1, day := c.2.2
    hour := rem / 3600, minute := rem % 3600 / 60, second := rem % 60 }

/-- Python `date + timedelta(days=k)` on the date part of a datetime. -/
def PyDateTime.addDays (t : PyDateTime) (k : Int) : PyDateTime :=
  pyDateTimeOfEpochSeconds (t.epochSeconds + 86400 * k)

/-- `pytz.UTC.localize(t).astimezone(America/Sao_Paulo)` — the wall clock
in Sao Paulo of the instant whose UTC wall clock is `t`. America/Sao_Paulo
is modelled as the fixed offset UTC-3, its value since Brazil abolished
daylight saving in 2019; historical DST transitions are not modelled. -/
def astimezoneSaoPaulo (t : PyDateTime) : PyDateTime :=
  pyDateTimeOfEpochSeconds (t.epochSeconds - 10800)

/-- Left-pad the decimal representation of `n` with zeros to width `w`. -/
def padNat (w : Nat) (n : Nat) : String :=
  let s := toString n
  if s.length < w then String.mk (List.replicate (w - s.length) '0') ++ s else s

/-- Python `strftime("%Y-%m-%d")` for non-negative years. -/
def strftimeYMD (y : Int) (m d : Nat) : String :=
  padNat 4 y.toNat ++ "-" ++ padNat 2 m ++ "-" ++ padNat 2 d

/-- Python `strftime("%Y-%m-%dT%H:%M:%S.%f%z")` on a Sao Paulo-localized
datetime: microseconds are zero in this model and the offset is the
fixed -0300 of the Sao Paulo zone model. -/
def strftimeIsoMicroTz (t : PyDateTime) : String :=
  strftimeYMD t.year t.month t.day ++ "T" ++ padNat 2 t.hour ++ ":"
    ++ padNat 2 t.minute ++ ":" ++ padNat 2 t.second ++ ".000000-0300"

/-! ### Executable string primitives

Models of the Python/library string operations the source relies on
(split, int parsing, lexicographic comparison, substring replacement),
written over character lists so that every definition evaluates. -/

/-- Split a character list on a separator character, keeping empty
pieces (Python `str.split(sep)` with a one-character separator). -/
def splitChar (sep : Char) : List Char → List (List Char)
  | [] => [[]]
  | c :: cs =>
    let r := splitChar sep cs
    if c = sep then [] :: r
    else
      match r with
      | [] => [[c]]
      | h :: t => (c :: h) :: t

/-- `s.split(sep)` for a one-character separator. -/
def splitOnChar (s : String) (sep : Char) : List String :=
  (splitChar sep s.data).map (fun cs => String.mk cs)

/-- Python `int(s)` on an unsigned decimal numeral (`none` otherwise). -/
def parseNat (s : String) : Option Nat :=
  if s.data ≠ [] && s.data.all Char.isDigit then
    some (s.data.foldl (fun a c => a * 10 + (c.toNat - 48)) 0)
  else none

/-- Python `int(s)` allowing one leading minus sign. -/
def parseInt (s : String) : Option Int :=
  match s.data with
  | '-' :: rest => (parseNat (String.mk rest)).map (fun n => -(n : Int))
  | _ => (parseNat s).map (fun n => (n : Int))

/-- Lexicographic comparison of character lists by code point. -/
def charsLe : List Char → List Char → Bool
  | [], _ => true
  | _ :: _, [] => false
  | a :: as, b :: bs =>
    if a.toNat = b.toNat then charsLe as bs else decide (a.toNat < b.toNat)

/-- Python string `<=`: lexicographic by code point. -/
def strLe (a b : String) : Bool :=
  charsLe a.data b.data

/-- Strip `pat` from the front of `cs`, when it is a prefix. -/
def stripFront : List Char → List Char → Option (List Char)
  | [], cs => some cs
  | _ :: _, [] => none
  | p :: ps, c :: cs => if p = c then stripFront ps cs else none

/-- Replace every occurrence of `pat` (nonempty) in `cs` by `rep`,
scanning left to right; `fuel` bounds the scan. -/
def replaceChars (pat rep : List Char) : Nat → List Char → List Char
  | 0, cs => cs
  | _ + 1, [] => []
  | f + 1, c :: rest =>
    match stripFront pat (c :: rest) with
    | some rem => rep ++ replaceChars pat rep f rem
    | none => c :: replaceChars pat rep f rest

/-- Python `s.replace(pat, rep)` for a nonempty pattern. -/
def replaceAll (s pat rep : String) : String :=
  match pat.data with
  | [] => s
  | _ :: _ => String.mk (replaceChars pat.data rep.data s.data.length s.data)

/-! ## `get_month` (downloaders.py lines 59-67)

```
def get_month(dt, monthdelta):
    first = date(dt.year, dt.month, 1)
    delta = 0
    while delta > monthdelta:
        first += timedelta(-1)
        dt = first
        first = date(dt.year, dt.month, 1)
        delta -= 1
    return first
```

The while loop runs `max 0 (-monthdelta)` times; its body steps `first`
to the first day of the preceding month. -/

/-- Python `date(y, m, 1)` for the month of `d`. -/
def firstOfMonth (d : PyDate) : PyDate :=
  { year := d.year, month := d.month, day := 1 }

/-- Python `d + timedelta(-1)`: the previous calendar day. -/
def prevDay (d : PyDate) : PyDate :=
  if 1 < d.day then { d with day := d.day - 1 }
  else if 1 < d.month then
    { year := d.year, month := d.month - 1, day := daysInMonth d.year (d.month - 1) }
  else
    { year := d.year - 1, month := 12, day := 31 }

/-- The body of the `get_month` while loop, iterated `n` times. -/
def getMonthLoop : Nat → PyDate → PyDate
  | 0, first => first
  | n + 1, first => getMonthLoop n (firstOfMonth (prevDay first))

/-- `get_month` from downloaders.py: the while loop runs while
`delta > monthdelta` with `delta` counting down from zero, i.e.
`(-monthdelta).toNat` times. -/
def get_month (dt : PyDate) (monthdelta : Int) : PyDate :=
  getMonthLoop (-monthdelta).toNat (firstOfMonth dt)

/-- The month one step before `(y, m)`, as a year-month pair. -/
def prevMonthPair (p : Int × Nat) : Int × Nat :=
  if p.2 = 1 then (p.1 - 1, 12) else (p.1, p.2 - 1)

/-- `prevMonthPair` iterated: stepping backward one whole month at a time. -/
def monthsBack : Nat → Int × Nat → Int × Nat
  | 0, p => p
  | n + 1, p => monthsBack n (prevMonthPair p)

/-! ## HTTP fetch core and zip model

The network is an explicit input: each download function receives the
`HttpResponse` the wire would have produced for its request. A response
body is either raw bytes or (when the remote artifact is a zip archive)
the entry list of the archive; the third-party zip reader is modelled at the
level of its contract — `namelist` lists entry names in order, `read`
returns the bytes of the named entry. -/

/-- The logical content of a byte stream: raw bytes, or a zip archive
given as its ordered list of (entry name, entry bytes) pairs. -/
inductive Body where
  | bytes (bs : List Nat)
  | archive (entries : List (String × List Nat))
deriving DecidableEq, Repr

/-- An HTTP response: status code, headers, body. -/
structure HttpResponse where
  status_code : Int
  headers : List (String × String)
  body : Body
deriving DecidableEq, Repr

/-- ASCII lower-casing of one character. -/
def lowerChar (c : Char) : Char :=
  if c.toNat ≥ 65 && c.toNat ≤ 90 then Char.ofNat (c.toNat + 32) else c

/-- ASCII lower-casing of a string (header names are ASCII). -/
def lowerString (s : String) : String :=
  String.mk (s.data.map lowerChar)

/-- `res.headers[key]` on a requests response: case-insensitive lookup,
raising `KeyError` when the header is absent. -/
def headerLookup (headers : List (String × String)) (key : String) : Except String String :=
  match headers.find? (fun p => lowerString p.1 == lowerString key) with
  | some p => .ok p.2
  | none => .error ("KeyError: " ++ key)

/-- Last path segment of a URL. -/
def urlBasename (url : String) : String :=
  (splitOnChar url '/').getLastD ""

/-- Modelled from the spec: `download_url` is repository code not under
the given source (only its call sites are). Per the spec (section 4.3) it
GETs the URL and returns a 4-tuple (suggested filename, body stream,
status code, raw response), materializing the body into a read-from-start
stream on every status so headers stay inspectable; the suggested
filename is derived from the URL path. The response is an input here. -/
def download_url (url : String) (verify_ssl : Bool) (resp : HttpResponse) :
    Option String × Body × Int × HttpResponse :=
  (some (urlBasename url), resp.body, resp.status_code, resp)

/-- `zf.namelist()`: entry names in archive order. -/
def zipNamelist (entries : List (String × List Nat)) : List String :=
  entries.map Prod.fst

/-- `zf.read(name)`: bytes of the named entry (`KeyError` when absent). -/
def zipRead (entries : List (String × List Nat)) (name : String) :
    Except String (List Nat) :=
  match entries.find? (fun e => e.1 == name) with
  | some e => .ok e.2
  | none => .error ("KeyError: There is no item named " ++ name ++ " in the archive")

/-! ## Last-Modified parsing (strptime with format a, d b Y H:M:S Z)

Models `datetime.strptime(s, "%a, %d %b %Y %H:%M:%S %Z")`: an
abbreviated weekday name followed by a comma, day, abbreviated month
name, 4-digit year, a colon-separated time, and a timezone name. As in
CPython, the weekday token must be a valid abbreviation but is NOT
checked for consistency with the date; the day is validated against the
month by the datetime constructor. The timezone names accepted by the
model are GMT and UTC (HTTP dates always carry GMT). -/

def weekdayAbbrevs : List String :=
  ["Mon", "Tue", "Wed", "Thu", "Fri", "Sat", "Sun"]

def monthAbbrevs : List String :=
  ["Jan", "Feb", "Mar", "Apr", "May", "Jun",
   "Jul", "Aug", "Sep", "Oct", "Nov", "Dec"]

/-- Month number (1-12) of an abbreviated month name. -/
def monthOfAbbrev (s : String) : Option Nat :=
  (monthAbbrevs.findIdx? (fun m => m == s)).map (fun i => i + 1)

/-- `datetime.strptime(s, "%a, %d %b %Y %H:%M:%S %Z")`. -/
def parseLastModified (s : String) : Except String PyDateTime :=
  let bad : Except String PyDateTime :=
    .error ("ValueError: time data " ++ s ++ " does not match format")
  match splitOnChar s ' ' with
  | [wd, dstr, mon, ystr, time, tz] =>
    if (wd.data.getLast? == some ',')
        && weekdayAbbrevs.contains (String.mk wd.data.dropLast)
        && (tz == "GMT" || tz == "UTC") then
      match parseNat dstr, monthOfAbbrev mon, parseNat ystr, splitOnChar time ':' with
      | some d, some m, some y, [hh, mi, ss] =>
        match parseNat hh, parseNat mi, parseNat ss with
        | some h, some mi2, some s2 =>
          if 1 ≤ d && d ≤ daysInMonth y m && h < 24 && mi2 < 60 && s2 < 60 then
            .ok { year := y, month := m, day := d, hour := h, minute := mi2, second := s2 }
          else bad
        | _, _, _ => bad
      | _, _, _, _ => bad
    else bad
  | _ => bad

/-! ## Downloader strategies (downloaders.py lines 70-209)

Each downloader is a structure holding the template attribute fields it
reads (`attrs`) and the construction-time wall clock `now`; its
`download` takes the HTTP response as the world input. Heterogeneous
Python tuple returns become `DownloadReturn`. -/

/-- A downloader return value: the usual 4-tuple, or the 3-tuple the
empty-archive branch of `StaticZipFileDownloader.download` produces. -/
inductive DownloadReturn where
  | tuple4 (fname : Option String) (stream : Option Body) (status : Int)
      (refdate : Option PyDateTime)
  | tuple3 (fname : Option String) (stream : Option Body) (status : Int)
deriving DecidableEq, Repr

/-- Does a download call return the 3-element shape? -/
def DownloadReturn.isThreeTuple : DownloadReturn → Bool
  | .tuple3 _ _ _ => true
  | .tuple4 _ _ _ _ => false

/-- Attribute fields read by the static-file downloader family. -/
structure StaticFileAttrs where
  url : String
  ext : Option String
  verify_ssl : Option Bool
deriving DecidableEq, Repr

/-- Modelled from the spec: `get_fname` is defined in repository code not
under the given source (only its call sites are). Per the spec
(section 4.4) the destination name of the static-file family IS the
convention string `get_fname2` builds, so `get_fname` returns its
filename argument unchanged. -/
def get_fname (fname : String) (refdate : PyDateTime) : String :=
  fname

/-- `os.path.splitext(p)[1]`: the extension of the last path segment. -/
def splitextExt (p : String) : String :=
  let base := (splitOnChar p '/').getLastD ""
  let parts := splitOnChar base '.'
  if parts.length ≤ 1 then ""
  else if (base.data.head? == some '.') && parts.length == 2 then ""
  else "." ++ parts.getLastD ""

/-- `StaticFileDownloader.get_fname2` (identical code in
`StaticZipFileDownloader`): `"{refdate:%Y-%m-%d}{ext}"` where ext is
`.{attrs.ext}` when configured, else the extension of `self._url`. -/
def get_fname2 (attrs : StaticFileAttrs) (theUrl : String) (refdate : PyDateTime) : String :=
  let ext := match attrs.ext with
    | some e => "." ++ e
    | none => splitextExt theUrl
  strftimeYMD refdate.year refdate.month refdate.day ++ ext

structure StaticFileDownloader where
  attrs : StaticFileAttrs
  now : PyDateTime
deriving DecidableEq, Repr

/-- `StaticFileDownloader.download` (downloaders.py lines 84-97). -/
def StaticFileDownloader.download (d : StaticFileDownloader) (resp : HttpResponse)
    (refdate : Option PyDateTime) : Except String DownloadReturn :=
  let url := d.attrs.url
  let r := download_url url (d.attrs.verify_ssl.getD true) resp
  let tfile := r.2.1
  let status_code := r.2.2.1
  let res := r.2.2.2
  match headerLookup res.headers "last-modified" with
  | .error e => .error e
  | .ok lm =>
    match parseLastModified lm with
    | .error e => .error e
    | .ok t =>
      let rd := astimezoneSaoPaulo t
      if status_code ≠ 200 then .ok (.tuple4 none none status_code (some rd))
      else
        let fname := get_fname2 d.attrs url rd
        let f_fname := get_fname fname rd
        .ok (.tuple4 (some f_fname) (some tfile) 200 (some rd))

structure StaticZipFileDownloader where
  attrs : StaticFileAttrs
  now : PyDateTime
deriving DecidableEq, Repr

/-- `StaticZipFileDownloader.download` (downloaders.py lines 114-140).
Note the empty-archive branch returns a 3-tuple. -/
def StaticZipFileDownloader.download (d : StaticZipFileDownloader) (resp : HttpResponse)
    (refdate : Option PyDateTime) : Except String DownloadReturn :=
  let url := d.attrs.url
  let r := download_url url (d.attrs.verify_ssl.getD true) resp
  let tfile := r.2.1
  let status_code := r.2.2.1
  let res := r.2.2.2
  match headerLookup res.headers "last-modified" with
  | .error e => .error e
  | .ok lm =>
    match parseLastModified lm with
    | .error e => .error e
    | .ok t =>
      let rd := astimezoneSaoPaulo t
      if status_code ≠ 200 then .ok (.tuple4 none none status_code (some rd))
      else
        match tfile with
        | .bytes _ => .error "BadZipFile: File is not a zip file"
        | .archive entries =>
          let nl := zipNamelist entries
          if nl.length == 0 then .ok (.tuple3 none none 204)
          else
            let name := nl.getD 0 ""
            match zipRead entries name with
            | .error e => .error e
            | .ok content =>
              let temp := Body.bytes content
              let fname := get_fname2 d.attrs url rd
              .ok (.tuple4 (some (get_fname fname rd)) (some temp) 200 (some rd))

/-! ## PreparedURLDownloader (downloaders.py lines 172-209) -/

/-- A value in `attrs["parameters"]`: either a structured descriptor
(a dict with a `type` and a `value`) or a literal string. -/
inductive ParamSpec where
  | descriptor (type_ : String) (value : String)
  | literal (value : String)
deriving DecidableEq, Repr

/-- Attribute fields read by `PreparedURLDownloader`. -/
structure PreparedURLAttrs where
  url : String
  parameters : List (String × ParamSpec)
  timedelta : Option Int
  verify_ssl : Option Bool
deriving DecidableEq, Repr

/-- One `strftime` directive on a naive datetime. -/
def strftimeChar (t : PyDateTime) (c : Char) : String :=
  if c = 'Y' then padNat 4 t.year.toNat
  else if c = 'm' then padNat 2 t.month
  else if c = 'd' then padNat 2 t.day
  else if c = 'H' then padNat 2 t.hour
  else if c = 'M' then padNat 2 t.minute
  else if c = 'S' then padNat 2 t.second
  else if c = '%' then "%"
  else String.mk ['%', c]

/-- Python `strftime` over a format string, as a scan of its characters. -/
def strftimeGo (t : PyDateTime) : List Char → String
  | [] => ""
  | '%' :: c :: rest => strftimeChar t c ++ strftimeGo t rest
  | c :: rest => String.singleton c ++ strftimeGo t rest

/-- Python `t.strftime(fmt)` for the directives the templates use. -/
def strftime (t : PyDateTime) (fmt : String) : String :=
  strftimeGo t fmt.data

/-- The parameter-building loop of `PreparedURLDownloader.download`
(lines 176-183): a descriptor with `type = "datetime"` contributes the
refdate formatted with its `value` pattern; a descriptor with any other
type contributes nothing; a literal passes through unchanged. -/
def buildParams (parameters : List (String × ParamSpec)) (refdate : PyDateTime) :
    List (String × String) :=
  parameters.foldl (fun acc p =>
    match p.2 with
    | .descriptor t v => if t == "datetime" then acc ++ [(p.1, strftime refdate v)] else acc
    | .literal v => acc ++ [(p.1, v)]) []

/-- Python `url.format(**params)`: named-placeholder substitution. (The
model substitutes every occurrence of each brace-wrapped name; missing
keys, which raise in Python, do not occur in the claim statements.) -/
def formatMap (s : String) (params : List (String × String)) : String :=
  params.foldl
    (fun acc kv => replaceAll acc ("\x7b" ++ kv.1 ++ "\x7d") kv.2) s

structure PreparedURLDownloader where
  attrs : PreparedURLAttrs
  now : PyDateTime
deriving DecidableEq, Repr

/-- `PreparedURLDownloader._download_unzip_historical_data`
(downloaders.py lines 192-209): fetch, then unwrap the first zip entry;
returns a 3-tuple in every branch. -/
def PreparedURLDownloader.download_unzip_historical_data
    (d : PreparedURLDownloader) (url : String) (resp : HttpResponse) :
    Except String (Option String × Option Body × Int) :=
  let r := download_url url (d.attrs.verify_ssl.getD true) resp
  let temp := r.2.1
  let status_code := r.2.2.1
  if status_code ≠ 200 then .ok (none, none, status_code)
  else
    match temp with
    | .bytes _ => .error "BadZipFile: File is not a zip file"
    | .archive entries =>
      let nl := zipNamelist entries
      if nl.length == 0 then .ok (none, none, 204)
      else
        let name := nl.getD 0 ""
        match zipRead entries name with
        | .error e => .error e
        | .ok content => .ok (some name, some (Body.bytes content), 200)

/-- `PreparedURLDownloader.download` (downloaders.py lines 173-190):
resolves the refdate, builds the parameterized URL, delegates to the
unzip helper, and wraps the outcome into a 4-tuple — including on the
non-200 (and empty-archive 204) path, where the refdate IS present. -/
def PreparedURLDownloader.download (d : PreparedURLDownloader) (resp : HttpResponse)
    (refdate : Option PyDateTime) : Except String DownloadReturn :=
  let rd := match refdate with
    | some r => r
    | none => d.now.addDays (d.attrs.timedelta.getD 0)
  let url := formatMap d.attrs.url (buildParams d.attrs.parameters rd)
  match d.download_unzip_historical_data url resp with
  | .error e => .error e
  | .ok (fname, temp_file, status_code) =>
    if status_code ≠ 200 then .ok (.tuple4 none none status_code (some rd))
    else .ok (.tuple4 (some (get_fname (fname.getD "") rd)) temp_file 200 (some rd))

/-! ## Download orchestration (`download_by_config`, downloaders.py lines 316-376)

`json.loads` is modelled by passing its outcome (`config_data`); the
downloader factory is repository code not under the given source and is
passed as a function (per the spec, section 4.5, it builds a downloader
from the parsed configuration or fails). A downloader is, for the
orchestration layer, its `now` weekday plus its `download` operation.
Crucially, in the source the configuration parse (line 318) and the
factory call (line 320) happen BEFORE the `try` block (line 344), so
exceptions there propagate; only the download/save steps are guarded. -/

/-- The configuration fields `download_by_config` reads. -/
structure Config where
  name : String
  output_bucket : String
  download_weekdays : Option (List Nat)
deriving DecidableEq, Repr

/-- What the orchestration layer needs of a constructed downloader:
its `now.weekday()` and its `download` operation. -/
structure Downloader where
  nowWeekday : Nat
  download : Option PyDateTime → Except String DownloadReturn

/-- The run-result record (spec section 3). -/
structure RunResult where
  message : String
  download_status : Int
  status : Int
  refdate : Option String
  filename : Option String
  bucket : String
  name : String
  time : String
deriving DecidableEq, Repr

/-- Python `str` of a list of ints, as interpolated into the skip message. -/
def pyListStr (ws : List Nat) : String :=
  "[" ++ String.intercalate ", " (ws.map toString) ++ "]"

/-- The weekday-gate condition of line 323: Python truthiness of
`config.get("download_weekdays")` (absent OR EMPTY is falsy) and
membership of the weekday. -/
def weekdayGate (config : Config) (w : Nat) : Bool :=
  match config.download_weekdays with
  | none => false
  | some ws => !ws.isEmpty && !(ws.contains w)

/-- `download_by_config` (downloaders.py lines 316-376). `download_time`
is the formatted `datetime.now(timezone.utc)` string, passed as input. -/
def download_by_config (config_data : Except String Config)
    (downloader_factory : Config → Except String Downloader)
    (save_func : Config → Option String → Option Body → Except String Unit)
    (download_time : String)
    (refdate : Option PyDateTime) : Except String RunResult :=
  match config_data with
  | .error e => .error e
  | .ok config =>
    match downloader_factory config with
    | .error e => .error e
    | .ok downloader =>
      if weekdayGate config downloader.nowWeekday then
        .ok { message := "Not a date to download. Weekday " ++ toString downloader.nowWeekday
                ++ " Download Weekdays " ++ pyListStr (config.download_weekdays.getD []),
              download_status := -1, status := -1, refdate := none, filename := none,
              bucket := config.output_bucket, name := config.name, time := download_time }
      else
        let attempt : Except String RunResult :=
          match downloader.download refdate with
          | .error e => .error e
          | .ok (.tuple3 _ _ _) =>
              .error "ValueError: not enough values to unpack (expected 4, got 3)"
          | .ok (.tuple4 fname tfile status_code rd) =>
            if status_code = 200 then
              match save_func config fname tfile with
              | .error e => .error e
              | .ok _ =>
                .ok { message := "File saved", download_status := status_code, status := 0,
                      refdate := rd.map strftimeIsoMicroTz, filename := fname,
                      bucket := config.output_bucket, name := config.name,
                      time := download_time }
            else
              .ok { message := "File not saved", download_status := status_code, status := 1,
                    refdate := rd.map strftimeIsoMicroTz, filename := fname,
                    bucket := config.output_bucket, name := config.name,
                    time := download_time }
        match attempt with
        | .ok r => .ok r
        | .error ex =>
          .ok { message := ex, download_status := -1, status := 2, refdate := none,
                filename := none, bucket := config.output_bucket, name := config.name,
                time := download_time }

/-! ## Reader-dispatch layer (readers/helpers.py)

The cache layer (`CacheManager`, `CacheMetadata`) and the format parsers
are repository code not under the given source; they are modelled from
the spec (sections 4.8 and 4.11): `cache_path` resolution and the
parsers are passed as functions, a parser parses eagerly at construction
and exposes its decoded table(s) via a `data` property by value, and a
`CacheMetadata` entry holds the ordered list of raw cached filenames and
is, per the spec lifecycle, read but never mutated by this layer — so
`downloaded_files` access yields the list by value, and each reader is
embedded with the metadata state threaded explicitly so the frame
property is visible in its type. A pandas DataFrame is modelled as an
association list of named columns; column assignment on the local `df`
produces a new table value, per the spec note that the coerced copy in
`read_b3_bvbg086` stays local. -/

/-- A cell of a decoded table: raw text, a numeric value, or a
date-time value (pandas timestamps are modelled by their civil date). -/
inductive CellValue where
  | text (s : String)
  | num (n : Int)
  | stamp (d : PyDate)
deriving DecidableEq, Repr

/-- A named-column table (a pandas DataFrame) is an ordered association
list of column name to column of cells. -/
abbrev Table := List (String × List CellValue)

/-- `pd.to_numeric` on one cell: numeric text becomes a number. -/
def toNumericCell (v : CellValue) : CellValue :=
  match v with
  | .text s => (match parseInt s with | some n => .num n | none => v)
  | _ => v

/-- `pd.to_numeric` on a column. -/
def to_numeric (c : List CellValue) : List CellValue :=
  c.map toNumericCell

/-- `pd.to_datetime` on one cell: ISO `YYYY-MM-DD` text becomes a date. -/
def toDatetimeCell (v : CellValue) : CellValue :=
  match v with
  | .text s =>
    (match splitOnChar s '-' with
     | [ys, ms, ds] =>
       (match parseNat ys, parseNat ms, parseNat ds with
        | some y, some m, some d => .stamp ⟨y, m, d⟩
        | _, _, _ => v)
     | _ => v)
  | _ => v

/-- `pd.to_datetime` on a column. -/
def to_datetime (c : List CellValue) : List CellValue :=
  c.map toDatetimeCell

/-- `df[name]` : the named column (empty when absent; absence does not
occur in the claim statements). -/
def getCol (df : Table) (name : String) : List CellValue :=
  ((df.find? (fun p => p.1 == name)).map Prod.snd).getD []

/-- `df[name] = c` as a pure update: replace the named column, or append
it when new. -/
def setCol (df : Table) (name : String) (c : List CellValue) : Table :=
  if df.any (fun p => p.1 == name) then
    df.map (fun p => if p.1 == name then (p.1, c) else p)
  else df ++ [(name, c)]

/-- Modelled from the spec: `CacheMetadata` (section 4.8) is not under
the given source. It is the per (template, refdate) record holding the
ordered collection of raw cached filenames. -/
structure CacheMetadata where
  downloaded_files : List String
deriving DecidableEq, Repr

/-- Insert into a sorted list of strings (ascending). -/
def insertSorted (x : String) : List String → List String
  | [] => [x]
  | y :: ys => if strLe x y then x :: y :: ys else y :: insertSorted x ys

/-- Python `list.sort()` outcome on strings: ascending insertion sort. -/
def sortStrings : List String → List String
  | [] => []
  | x :: xs => insertSorted x (sortStrings xs)

/-- Modelled from the spec: `COTAHISTParser` (section 4.11a) is not under
the given source; it parses eagerly and exposes a named-table mapping
(`_data._tables`) with at least a `"data"` table. -/
structure COTAHISTParser where
  tables : List (String × Table)
deriving DecidableEq, Repr

/-- Modelled from the spec: `BVBG028Parser` (section 4.11b) is not under
the given source; it parses eagerly into several named tables exposed via
its `data` property. -/
structure BVBG028Parser where
  data : List (String × Table)
deriving DecidableEq, Repr

/-- Modelled from the spec: `BVBG086Parser` (section 4.11c) is not under
the given source; it parses eagerly into a single table exposed via its
`data` property, whose access yields the parsed table by value (per the
spec note, the reader returns the original table of the parser). -/
structure BVBG086Parser where
  data : Table
deriving DecidableEq, Repr

/-- Modelled from the spec: `CDIParser` (section 4.11d) is not under the
given source; it parses eagerly into a single table exposed via `data`. -/
structure CDIParser where
  data : Table
deriving DecidableEq, Repr

/-- Python dict lookup `m[k]` (`KeyError` when absent). -/
def pyDictLookup (m : List (String × Table)) (k : String) : Except String Table :=
  match m.find? (fun p => p.1 == k) with
  | some p => .ok p.2
  | none => .error ("KeyError: " ++ k)

/-- `read_b3_cotahist` (helpers.py lines 34-38): first cached file,
parsed, returning the `"data"` table of the parser. The metadata state is
threaded explicitly and returned. -/
def read_b3_cotahist (cache_path : String → String)
    (parserOf : String → COTAHISTParser) (meta : CacheMetadata) :
    Except String Table × CacheMetadata :=
  match meta.downloaded_files with
  | [] => (.error "IndexError: list index out of range", meta)
  | fname :: _ =>
    let parser := parserOf (cache_path fname)
    (pyDictLookup parser.tables "data", meta)

/-- `read_b3_bvbg028` (helpers.py lines 41-47): sort the cached
filenames, parse the lexicographically last, return the full mapping. -/
def read_b3_bvbg028 (cache_path : String → String)
    (parserOf : String → BVBG028Parser) (meta : CacheMetadata) :
    Except String (List (String × Table)) × CacheMetadata :=
  let paths := sortStrings meta.downloaded_files
  match paths.getLast? with
  | none => (.error "IndexError: list index out of range", meta)
  | some fname =>
    let parser := parserOf (cache_path fname)
    (.ok parser.data, meta)

/-- `read_b3_bvbg086` (helpers.py lines 50-86): sort, parse the last
file, apply 27 per-column coercions to the local `df`, and return
`parser.data` — the original table, not the coerced local copy. -/
def read_b3_bvbg086 (cache_path : String → String)
    (parserOf : String → BVBG086Parser) (meta : CacheMetadata) :
    Except String Table × CacheMetadata :=
  let paths := sortStrings meta.downloaded_files
  match paths.getLast? with
  | none => (.error "IndexError: list index out of range", meta)
  | some fname =>
    let parser := parserOf (cache_path fname)
    let df := parser.data
    let df := setCol df "refdate" (to_datetime (getCol df "refdate"))
    let df := setCol df "creation_date" (to_datetime (getCol df "creation_date"))
    let df := setCol df "security_id" (to_numeric (getCol df "security_id"))
    let df := setCol df "security_proprietary" (to_numeric (getCol df "security_proprietary"))
    let df := setCol df "open_interest" (to_numeric (getCol df "open_interest"))
    let df := setCol df "trade_quantity" (to_numeric (getCol df "trade_quantity"))
    let df := setCol df "volume" (to_numeric (getCol df "volume"))
    let df := setCol df "traded_contracts" (to_numeric (getCol df "traded_contracts"))
    let df := setCol df "best_ask_price" (to_numeric (getCol df "best_ask_price"))
    let df := setCol df "best_bid_price" (to_numeric (getCol df "best_bid_price"))
    let df := setCol df "open" (to_numeric (getCol df "open"))
    let df := setCol df "low" (to_numeric (getCol df "low"))
    let df := setCol df "high" (to_numeric (getCol df "high"))
    let df := setCol df "average" (to_numeric (getCol df "average"))
    let df := setCol df "close" (to_numeric (getCol df "close"))
    let df := setCol df "regular_transactions_quantity" (to_numeric (getCol df "regular_transactions_quantity"))
    let df := setCol df "regular_traded_contracts" (to_numeric (getCol df "regular_traded_contracts"))
    let df := setCol df "regular_volume" (to_numeric (getCol df "regular_volume"))
    let df := setCol df "oscillation_percentage" (to_numeric (getCol df "oscillation_percentage"))
    let df := setCol df "adjusted_quote" (to_numeric (getCol df "adjusted_quote"))
    let df := setCol df "adjusted_tax" (to_numeric (getCol df "adjusted_tax"))
    let df := setCol df "previous_adjusted_quote" (to_numeric (getCol df "previous_adjusted_quote"))
    let df := setCol df "previous_adjusted_tax" (to_numeric (getCol df "previous_adjusted_tax"))
    let df := setCol df "variation_points" (to_numeric (getCol df "variation_points"))
    let df := setCol df "adjusted_value_contract" (to_numeric (getCol df "adjusted_value_contract"))
    let df := setCol df "nonregular_transactions_quantity" (to_numeric (getCol df "nonregular_transactions_quantity"))
    let df := setCol df "nonregular_traded_contracts" (to_numeric (getCol df "nonregular_traded_contracts"))
    let df := setCol df "nonregular_volume" (to_numeric (getCol df "nonregular_volume"))
    (.ok parser.data, meta)

/-- `read_b3_cdi` (helpers.py lines 89-92): first cached file, parsed,
returning the parser table unmodified. -/
def read_b3_cdi (cache_path : String → String)
    (parserOf : String → CDIParser) (meta : CacheMetadata) :
    Except String Table × CacheMetadata :=
  match meta.downloaded_files with
  | [] => (.error "IndexError: list index out of range", meta)
  | fname :: _ => (.ok (parserOf (cache_path fname)).data, meta)

/-- `read_b3_futures_settlement_prices` (helpers.py lines 95-98): first
cached file, decoded by the settlement-price decoding function. -/
def read_b3_futures_settlement_prices (cache_path : String → String)
    (decoder : String → Table) (meta : CacheMetadata) :
    Except String Table × CacheMetadata :=
  match meta.downloaded_files with
  | [] => (.error "IndexError: list index out of range", meta)
  | fname :: _ => (.ok (decoder (cache_path fname)), meta)

/-! ## Theorems -/

/-! ### C7: get_month month-stepping -/

lemma prevMonthPair_bounds {p : Int × Nat} (h1 : 1 ≤ p.2) (h2 : p.2 ≤ 12) :
    1 ≤ (prevMonthPair p).2 ∧ (prevMonthPair p).2 ≤ 12 := by
  unfold prevMonthPair
  rcases p with ⟨y, m⟩
  by_cases hm : m = 1
  · simp [hm]
  · simp only [hm, if_false]
    omega

lemma step_eq_prevMonthPair {y : Int} {m : Nat} (h1 : 1 ≤ m) (h2 : m ≤ 12) :
    firstOfMonth (prevDay ⟨y, m, 1⟩) =
      ⟨(prevMonthPair (y, m)).1, (prevMonthPair (y, m)).2, 1⟩ := by
  unfold prevDay firstOfMonth prevMonthPair
  by_cases hm : m = 1
  · simp [hm]
  · have hgt : 1 < m := by omega
    simp [hm, hgt]

lemma getMonthLoop_eq_monthsBack {y : Int} {m : Nat} (n : Nat)
    (h1 : 1 ≤ m) (h2 : m ≤ 12) :
    getMonthLoop n ⟨y, m, 1⟩ =
      ⟨(monthsBack n (y, m)).1, (monthsBack n (y, m)).2, 1⟩ := by
  induction n generalizing y m with
  | zero => simp [getMonthLoop, monthsBack]
  | succ k ih =>
      have hb := prevMonthPair_bounds (p := (y, m)) h1 h2
      simp only [getMonthLoop, monthsBack]
      rw [step_eq_prevMonthPair h1 h2]
      exact ih hb.1 hb.2

/-- C7: for a date with a valid month and a non-positive delta `n`,
`get_month` returns the first-of-month date obtained by stepping
backward one whole month at a time `|n|` times from the month of `d`
(`n = 0` yields the first day of the month of `d`); in particular
`get_month (date 2024 3 15) (-1) = date 2024 2 1` and
`get_month (date 2024 1 10) (-2) = date 2023 11 1`. -/
theorem get_month_steps_back_months (d : PyDate) (n : Int)
    (hm1 : 1 ≤ d.month) (hm2 : d.month ≤ 12) (hn : n ≤ 0) :
    get_month d n =
      ⟨(monthsBack n.natAbs (d.year, d.month)).1,
       (monthsBack n.natAbs (d.year, d.month)).2, 1⟩ ∧
    get_month ⟨2024, 3, 15⟩ (-1) = ⟨2024, 2, 1⟩ ∧
    get_month ⟨2024, 1, 10⟩ (-2) = ⟨2023, 11, 1⟩ := by
  refine ⟨?_, by decide, by decide⟩
  unfold get_month firstOfMonth
  have hneg : (-n).toNat = n.natAbs := by omega
  rw [hneg]
  exact getMonthLoop_eq_monthsBack n.natAbs hm1 hm2

/-- Witness for C7 at `d = 2024-03-15`, `n = -1`. -/
theorem get_month_steps_back_months_witness :
    get_month ⟨2024, 3, 15⟩ (-1) =
      ⟨(monthsBack (Int.natAbs (-1)) ((2024 : Int), 3)).1,
       (monthsBack (Int.natAbs (-1)) ((2024 : Int), 3)).2, 1⟩ :=
  (get_month_steps_back_months ⟨2024, 3, 15⟩ (-1)
    (by decide) (by decide) (by decide)).1


/-! ### C1-C3: download_by_config orchestration -/

/-- C1 counterexample: a configuration text that fails to parse makes
`download_by_config` propagate the parse exception to its caller instead
of returning a status = 2 run-result — the parse (line 318) and the
factory call (line 320) sit before the `try` block (line 344). -/
theorem download_by_config_parse_error_propagates :
    download_by_config (Except.error "Expecting value: line 1 column 1 (char 0)")
        (fun _ => Except.error "unknown downloader") (fun _ _ _ => Except.ok ())
        "2024-03-15T12:00:00.000000+0000" none
      = Except.error "Expecting value: line 1 column 1 (char 0)" := rfl

/-- C1 (amended): once configuration parsing and downloader-factory
construction have succeeded, `download_by_config` always returns a
run-result; an exception raised while downloading, or while saving, is
caught and converted into a run-result with status = 2,
download_status = -1, refdate and filename absent, and message equal to
the exception text. Exceptions raised during parsing or factory
construction propagate to the caller. -/
theorem download_by_config_contains_download_and_save_errors
    (config : Config) (downloader : Downloader)
    (downloader_factory : Config → Except String Downloader)
    (save_func : Config → Option String → Option Body → Except String Unit)
    (download_time : String) (refdate : Option PyDateTime)
    (hf : downloader_factory config = .ok downloader) :
    (∃ r, download_by_config (.ok config) downloader_factory save_func
            download_time refdate = .ok r)
    ∧ (∀ e, weekdayGate config downloader.nowWeekday = false →
         downloader.download refdate = .error e →
         download_by_config (.ok config) downloader_factory save_func
             download_time refdate
           = .ok ⟨e, -1, 2, none, none, config.output_bucket, config.name,
                  download_time⟩)
    ∧ (∀ fname tfile rd2 e, weekdayGate config downloader.nowWeekday = false →
         downloader.download refdate = .ok (.tuple4 fname tfile 200 rd2) →
         save_func config fname tfile = .error e →
         download_by_config (.ok config) downloader_factory save_func
             download_time refdate
           = .ok ⟨e, -1, 2, none, none, config.output_bucket, config.name,
                  download_time⟩) := by
  refine ⟨?_, ?_, ?_⟩
  · simp only [download_by_config, hf]
    by_cases hg : weekdayGate config downloader.nowWeekday
    · simp only [hg, if_true]
      exact ⟨_, rfl⟩
    · simp only [Bool.not_eq_true] at hg
      simp only [hg, Bool.false_eq_true, if_false]
      cases hdl : downloader.download refdate with
      | error e => exact ⟨_, rfl⟩
      | ok r =>
        cases r with
        | tuple3 a b c => exact ⟨_, rfl⟩
        | tuple4 fname tfile sc rd2 =>
          by_cases hsc : sc = 200
          · simp only [hsc, if_true]
            cases hsv : save_func config fname tfile with
            | error e => exact ⟨_, rfl⟩
            | ok u => exact ⟨_, rfl⟩
          · simp only [hsc, if_false]
            exact ⟨_, rfl⟩
  · intro e hg hdl
    simp only [download_by_config, hf, hg, Bool.false_eq_true, if_false, hdl]
  · intro fname tfile rd2 e hg hdl hsv
    simp only [download_by_config, hf, hg, Bool.false_eq_true, if_false, hdl,
      if_true, hsv]

/-- Witness for the C1 theorem: a downloader stub whose download raises
is converted into a status = 2 run-result carrying the message. -/
theorem download_by_config_contains_download_and_save_errors_witness :
    download_by_config (.ok ⟨"tpl", "bkt", none⟩)
        (fun _ => .ok ⟨0, fun _ => .error "boom"⟩) (fun _ _ _ => .ok ())
        "t0" none
      = .ok ⟨"boom", -1, 2, none, none, "bkt", "tpl", "t0"⟩ :=
  (download_by_config_contains_download_and_save_errors
      ⟨"tpl", "bkt", none⟩ ⟨0, fun _ => .error "boom"⟩
      (fun _ => .ok ⟨0, fun _ => .error "boom"⟩) (fun _ _ _ => .ok ())
      "t0" none rfl).2.1 "boom" rfl rfl

/-- C2 counterexample: a configuration that SPECIFIES
`download_weekdays` as the empty set, whose weekdays therefore never
contain the now weekday of the downloader, is NOT skipped — the gate tests
Python truthiness, and an empty list is falsy, so the downloader runs
(here its exception yields status 2, not the skip record with
status -1 the claim requires). -/
theorem weekday_gate_empty_set_not_skipped :
    download_by_config (.ok ⟨"tpl", "bkt", some []⟩)
        (fun _ => .ok ⟨5, fun _ => .error "boom"⟩) (fun _ _ _ => .ok ())
        "t0" none
      = .ok ⟨"boom", -1, 2, none, none, "bkt", "tpl", "t0"⟩
    ∧ download_by_config (.ok ⟨"tpl", "bkt", some []⟩)
        (fun _ => .ok ⟨5, fun _ => .error "boom"⟩) (fun _ _ _ => .ok ())
        "t0" none
      ≠ .ok ⟨"Not a date to download. Weekday 5 Download Weekdays []",
             -1, -1, none, none, "bkt", "tpl", "t0"⟩ := by
  have E : download_by_config (.ok ⟨"tpl", "bkt", some []⟩)
      (fun _ => .ok ⟨5, fun _ => .error "boom"⟩) (fun _ _ _ => .ok ())
      "t0" none
    = .ok ⟨"boom", -1, 2, none, none, "bkt", "tpl", "t0"⟩ := rfl
  refine ⟨E, fun h =>
    absurd (congrArg RunResult.message (Except.ok.inj (E.symm.trans h))) (by decide)⟩

/-- C2 (amended): for every configuration specifying a NONEMPTY
`download_weekdays` not containing the now weekday of the downloader,
`download_by_config` returns immediately the skip run-result with
status = download_status = -1, refdate and filename absent, and the
"Not a date to download" message — for every download behavior, so no
fetch is attempted. -/
theorem download_by_config_weekday_skip
    (config : Config) (downloader : Downloader) (ws : List Nat)
    (downloader_factory : Config → Except String Downloader)
    (save_func : Config → Option String → Option Body → Except String Unit)
    (download_time : String) (refdate : Option PyDateTime)
    (hf : downloader_factory config = .ok downloader)
    (hw : config.download_weekdays = some ws) (hne : ws ≠ [])
    (hnotin : downloader.nowWeekday ∉ ws) :
    download_by_config (.ok config) downloader_factory save_func
        download_time refdate
      = .ok ⟨"Not a date to download. Weekday " ++ toString downloader.nowWeekday
               ++ " Download Weekdays " ++ pyListStr ws,
             -1, -1, none, none, config.output_bucket, config.name,
             download_time⟩ := by
  have hg : weekdayGate config downloader.nowWeekday = true := by
    unfold weekdayGate
    rw [hw]
    simp only [Bool.and_eq_true, Bool.not_eq_true]
    constructor
    · cases ws with
      | nil => exact absurd rfl hne
      | cons a l => rfl
    · simpa using hnotin
  simp only [download_by_config, hf, hg, if_true, hw, Option.getD_some]

/-- Witness for the C2 theorem: weekday 5 (Saturday) against the
Monday-Friday set yields the skip record. -/
theorem download_by_config_weekday_skip_witness :
    download_by_config (.ok ⟨"tpl", "bkt", some [0, 1, 2, 3, 4]⟩)
        (fun _ => .ok ⟨5, fun _ => .error "boom"⟩) (fun _ _ _ => .ok ())
        "t0" none
      = .ok ⟨"Not a date to download. Weekday 5 Download Weekdays [0, 1, 2, 3, 4]",
             -1, -1, none, none, "bkt", "tpl", "t0"⟩ :=
  download_by_config_weekday_skip ⟨"tpl", "bkt", some [0, 1, 2, 3, 4]⟩
    ⟨5, fun _ => .error "boom"⟩ [0, 1, 2, 3, 4]
    (fun _ => .ok ⟨5, fun _ => .error "boom"⟩) (fun _ _ _ => .ok ())
    "t0" none rfl rfl (by decide) (by decide)

/-- C3: past the weekday gate, when the downloader returns a status code
other than 200, `download_by_config` returns status = 1, message =
"File not saved", and download_status equal to that code — for EVERY
save operation, so the save is never invoked; on a 200 status it invokes
the save operation (whose outcome the result depends on) and, when the
save succeeds, returns status = 0 with message = "File saved". -/
theorem download_by_config_non200_not_saved_200_saved
    (config : Config) (downloader : Downloader)
    (downloader_factory : Config → Except String Downloader)
    (download_time : String) (refdate : Option PyDateTime)
    (fname : Option String) (tfile : Option Body) (status_code : Int)
    (rd : Option PyDateTime)
    (hf : downloader_factory config = .ok downloader)
    (hg : weekdayGate config downloader.nowWeekday = false)
    (hdl : downloader.download refdate
             = .ok (.tuple4 fname tfile status_code rd)) :
    (status_code ≠ 200 →
      ∀ save_func, download_by_config (.ok config) downloader_factory
          save_func download_time refdate
        = .ok ⟨"File not saved", status_code, 1, rd.map strftimeIsoMicroTz,
               fname, config.output_bucket, config.name, download_time⟩)
    ∧ (status_code = 200 →
      ∀ save_func, save_func config fname tfile = .ok () →
        download_by_config (.ok config) downloader_factory save_func
            download_time refdate
          = .ok ⟨"File saved", status_code, 0, rd.map strftimeIsoMicroTz,
                 fname, config.output_bucket, config.name, download_time⟩)
    ∧ (status_code = 200 →
      ∀ save_func e, save_func config fname tfile = .error e →
        download_by_config (.ok config) downloader_factory save_func
            download_time refdate
          = .ok ⟨e, -1, 2, none, none, config.output_bucket, config.name,
                 download_time⟩) := by
  refine ⟨?_, ?_, ?_⟩
  · intro hsc save_func
    simp only [download_by_config, hf, hg, Bool.false_eq_true, if_false, hdl,
      hsc]
  · intro hsc save_func hsv
    simp only [download_by_config, hf, hg, Bool.false_eq_true, if_false, hdl,
      hsc, if_true, hsv]
  · intro hsc save_func e hsv
    simp only [download_by_config, hf, hg, Bool.false_eq_true, if_false, hdl,
      hsc, if_true, hsv]

/-- Witness for the C3 theorem: a 404 download is reported as
status = 1, "File not saved", download_status = 404. -/
theorem download_by_config_non200_not_saved_200_saved_witness :
    download_by_config (.ok ⟨"tpl", "bkt", none⟩)
        (fun _ => .ok ⟨0, fun _ => .ok (.tuple4 none none 404 none)⟩)
        (fun _ _ _ => .ok ()) "t0" none
      = .ok ⟨"File not saved", 404, 1, none, none, "bkt", "tpl", "t0"⟩ :=
  (download_by_config_non200_not_saved_200_saved ⟨"tpl", "bkt", none⟩
      ⟨0, fun _ => .ok (.tuple4 none none 404 none)⟩
      (fun _ => .ok ⟨0, fun _ => .ok (.tuple4 none none 404 none)⟩)
      "t0" none none none 404 none rfl rfl rfl).1 (by decide)
      (fun _ _ _ => .ok ())

/-! ### C4: PreparedURLDownloader empty-archive result shape -/

/-- C4 counterexample: on an empty fetched archive,
`PreparedURLDownloader.download` returns a 4-element result whose 4th
element is the resolved refdate — the 3-element degraded shape is
produced by its helper and never escapes `download`. -/
theorem prepared_download_empty_archive_has_refdate :
    PreparedURLDownloader.download
        ⟨⟨"http://host/path", [], none, none⟩, ⟨2024, 3, 15, 10, 0, 0⟩⟩
        ⟨200, [], .archive []⟩ (some ⟨2024, 3, 15, 0, 0, 0⟩)
      = .ok (.tuple4 none none 204 (some ⟨2024, 3, 15, 0, 0, 0⟩))
    ∧ Except.map DownloadReturn.isThreeTuple
        (PreparedURLDownloader.download
          ⟨⟨"http://host/path", [], none, none⟩, ⟨2024, 3, 15, 10, 0, 0⟩⟩
          ⟨200, [], .archive []⟩ (some ⟨2024, 3, 15, 0, 0, 0⟩))
      = .ok false := ⟨rfl, rfl⟩

/-- C4 (amended): on an empty fetched archive, the 3-element degraded
result (filename absent, stream absent, status 204) is what the helper
`_download_unzip_historical_data` returns; `PreparedURLDownloader.download`
itself wraps it into the 4-element result (filename absent, stream
absent, status 204, resolved refdate present). -/
theorem prepared_download_empty_archive_branch
    (d : PreparedURLDownloader) (resp : HttpResponse)
    (refdate : Option PyDateTime) (url : String)
    (hs : resp.status_code = 200) (hb : resp.body = .archive []) :
    d.download_unzip_historical_data url resp = .ok (none, none, 204)
    ∧ d.download resp refdate
      = .ok (.tuple4 none none 204
          (some (match refdate with
                 | some r => r
                 | none => d.now.addDays (d.attrs.timedelta.getD 0)))) := by
  have hh : ∀ u : String,
      d.download_unzip_historical_data u resp = .ok (none, none, 204) := by
    intro u
    simp only [PreparedURLDownloader.download_unzip_historical_data,
      download_url, hs, hb]
    norm_num [zipNamelist]
  refine ⟨hh url, ?_⟩
  simp only [PreparedURLDownloader.download, hh]
  norm_num

/-- Witness for the C4 theorem at a concrete downloader and response. -/
theorem prepared_download_empty_archive_branch_witness :
    PreparedURLDownloader.download_unzip_historical_data
        ⟨⟨"http://host/path", [], none, none⟩, ⟨2024, 3, 15, 10, 0, 0⟩⟩
        "http://host/path" ⟨200, [], .archive []⟩
      = .ok (none, none, 204) :=
  (prepared_download_empty_archive_branch
      ⟨⟨"http://host/path", [], none, none⟩, ⟨2024, 3, 15, 10, 0, 0⟩⟩
      ⟨200, [], .archive []⟩ none "http://host/path" rfl rfl).1

/-! ### C5: single-entry zip unwrap -/

/-- C5: the zip-unwrap step — the unzip helper of `PreparedURLDownloader`
and the inline unwrap of `StaticZipFileDownloader.download` — returns
exactly the bytes of the FIRST listed archive entry as a new
read-from-start stream together with that first entry name; all later
entries are ignored. On entries A.txt and B.txt with distinct payloads
the result is the A.txt payload named A.txt, and B.txt is discarded. -/
theorem zip_unwrap_first_entry
    (d : PreparedURLDownloader) (z : StaticZipFileDownloader)
    (resp : HttpResponse) (url : String) (lm : String) (t : PyDateTime)
    (n0 : String) (b0 : List Nat) (rest : List (String × List Nat))
    (hs : resp.status_code = 200)
    (hb : resp.body = .archive ((n0, b0) :: rest)) :
    d.download_unzip_historical_data url resp
      = .ok (some n0, some (.bytes b0), 200)
    ∧ (headerLookup resp.headers "last-modified" = .ok lm →
       parseLastModified lm = .ok t →
       z.download resp none
         = .ok (.tuple4
             (some (get_fname
                (get_fname2 z.attrs z.attrs.url (astimezoneSaoPaulo t))
                (astimezoneSaoPaulo t)))
             (some (.bytes b0)) 200 (some (astimezoneSaoPaulo t))))
    ∧ PreparedURLDownloader.download_unzip_historical_data
        ⟨⟨"u", [], none, none⟩, ⟨2024, 1, 1, 0, 0, 0⟩⟩ "u"
        ⟨200, [], .archive [("A.txt", [65, 1]), ("B.txt", [66, 2])]⟩
      = .ok (some "A.txt", some (.bytes [65, 1]), 200) := by
  refine ⟨?_, ?_, by rfl⟩
  · simp only [PreparedURLDownloader.download_unzip_historical_data,
      download_url, hs, hb, zipNamelist, zipRead]
    norm_num [List.find?]
  · intro hlm hp
    simp only [StaticZipFileDownloader.download, download_url, hlm, hp, hs,
      hb, zipNamelist, zipRead]
    norm_num [List.find?]

/-- Witness for the C5 theorem: the helper on a two-entry archive. -/
theorem zip_unwrap_first_entry_witness :
    PreparedURLDownloader.download_unzip_historical_data
        ⟨⟨"u", [], none, none⟩, ⟨2024, 1, 1, 0, 0, 0⟩⟩ "u"
        ⟨200, [], .archive [("A.txt", [65, 1]), ("B.txt", [66, 2])]⟩
      = .ok (some "A.txt", some (.bytes [65, 1]), 200) :=
  (zip_unwrap_first_entry
      ⟨⟨"u", [], none, none⟩, ⟨2024, 1, 1, 0, 0, 0⟩⟩
      ⟨⟨"u", none, none⟩, ⟨2024, 1, 1, 0, 0, 0⟩⟩
      ⟨200, [], .archive [("A.txt", [65, 1]), ("B.txt", [66, 2])]⟩
      "u" "" ⟨0, 1, 1, 0, 0, 0⟩ "A.txt" [65, 1] [("B.txt", [66, 2])]
      rfl rfl).1

/-! ### C6: Last-Modified-derived effective refdate -/

/-- C6: for the static-file downloader family, the effective refdate of
the returned 4-tuple is derived solely from the Last-Modified header —
parsed with the fixed strptime format as UTC and converted to
America/Sao_Paulo — never from the refdate argument (the result is the
same for any two arguments); it is returned even when the status code is
not 200; and on success the destination filename is the refdate as
YYYY-MM-DD followed by the configured `.ext`, or else by the extension
of the source URL path. -/
theorem static_download_refdate_and_filename
    (d : StaticFileDownloader) (z : StaticZipFileDownloader)
    (resp : HttpResponse) (r1 r2 : Option PyDateTime)
    (lm : String) (t : PyDateTime) :
    (d.download resp r1 = d.download resp r2)
    ∧ (z.download resp r1 = z.download resp r2)
    ∧ (headerLookup resp.headers "last-modified" = .ok lm →
       parseLastModified lm = .ok t →
       resp.status_code ≠ 200 →
       d.download resp r1
         = .ok (.tuple4 none none resp.status_code
             (some (astimezoneSaoPaulo t)))
       ∧ z.download resp r1
         = .ok (.tuple4 none none resp.status_code
             (some (astimezoneSaoPaulo t))))
    ∧ (headerLookup resp.headers "last-modified" = .ok lm →
       parseLastModified lm = .ok t →
       resp.status_code = 200 →
       d.download resp r1
         = .ok (.tuple4
             (some (strftimeYMD (astimezoneSaoPaulo t).year
                      (astimezoneSaoPaulo t).month (astimezoneSaoPaulo t).day
                    ++ match d.attrs.ext with
                       | some e => "." ++ e
                       | none => splitextExt d.attrs.url))
             (some resp.body) 200 (some (astimezoneSaoPaulo t)))) := by
  refine ⟨rfl, rfl, ?_, ?_⟩
  · intro hlm hp hsc
    constructor
    · simp only [StaticFileDownloader.download, download_url, hlm, hp, hsc,
        if_true, ne_eq, not_false_iff]
    · simp only [StaticZipFileDownloader.download, download_url, hlm, hp,
        hsc, if_true, ne_eq, not_false_iff]
  · intro hlm hp hsc
    simp only [StaticFileDownloader.download, download_url, hlm, hp, hsc,
      get_fname, get_fname2]
    norm_num

/-- Witness for the C6 theorem: a 404 response carrying
Last-Modified "Fri, 15 Mar 2024 12:00:00 GMT" yields the Sao Paulo
refdate 2024-03-15 09:00:00 in the degraded 4-tuple. -/
theorem static_download_refdate_and_filename_witness :
    StaticFileDownloader.download
        ⟨⟨"http://host/file.zip", none, none⟩, ⟨2024, 3, 15, 0, 0, 0⟩⟩
        ⟨404, [("Last-Modified", "Fri, 15 Mar 2024 12:00:00 GMT")], .bytes []⟩
        none
      = .ok (.tuple4 none none 404 (some ⟨2024, 3, 15, 9, 0, 0⟩)) := by
  have h := (static_download_refdate_and_filename
      ⟨⟨"http://host/file.zip", none, none⟩, ⟨2024, 3, 15, 0, 0, 0⟩⟩
      ⟨⟨"http://host/file.zip", none, none⟩, ⟨2024, 3, 15, 0, 0, 0⟩⟩
      ⟨404, [("Last-Modified", "Fri, 15 Mar 2024 12:00:00 GMT")], .bytes []⟩
      none (some ⟨2030, 1, 1, 0, 0, 0⟩)
      "Fri, 15 Mar 2024 12:00:00 GMT" ⟨2024, 3, 15, 12, 0, 0⟩).2.2.1
      rfl rfl (by decide)
  exact h.1.trans (by rfl)

/-! ### C10: missing Last-Modified header raises before the status check -/

/-- C10: when the response headers contain no Last-Modified entry, both
static downloaders raise on the unconditional header access — before the
status-code check, for every status code — so a completed fetch without
that header surfaces from `download_by_config` as a status = 2
(exception) run-result, not a status = 1 (fetched but not saved) one. -/
theorem missing_last_modified_is_exception
    (d : StaticFileDownloader) (z : StaticZipFileDownloader)
    (resp : HttpResponse) (refdate : Option PyDateTime) (config : Config)
    (save_func : Config → Option String → Option Body → Except String Unit)
    (download_time : String) (w : Nat)
    (hnolm : resp.headers.find?
        (fun p => lowerString p.1 == lowerString "last-modified") = none)
    (hw : config.download_weekdays = none) :
    d.download resp refdate = .error "KeyError: last-modified"
    ∧ z.download resp refdate = .error "KeyError: last-modified"
    ∧ download_by_config (.ok config)
        (fun _ => .ok ⟨w, fun rd => d.download resp rd⟩) save_func
        download_time refdate
      = .ok ⟨"KeyError: last-modified", -1, 2, none, none,
             config.output_bucket, config.name, download_time⟩ := by
  have hd : d.download resp refdate = .error "KeyError: last-modified" := by
    simp only [StaticFileDownloader.download, download_url, headerLookup,
      hnolm]
    rfl
  have hz : z.download resp refdate = .error "KeyError: last-modified" := by
    simp only [StaticZipFileDownloader.download, download_url, headerLookup,
      hnolm]
    rfl
  have hg : weekdayGate config w = false := by
    simp only [weekdayGate, hw]
  exact ⟨hd, hz, by
    simp only [download_by_config, hg, Bool.false_eq_true, if_false, hd]⟩

/-- Witness for the C10 theorem: a 200 response without Last-Modified is
reported with status = 2, not 1. -/
theorem missing_last_modified_is_exception_witness :
    download_by_config (.ok ⟨"tpl", "bkt", none⟩)
        (fun _ => .ok ⟨0, fun rd => StaticFileDownloader.download
            ⟨⟨"http://host/file.zip", none, none⟩, ⟨2024, 3, 15, 0, 0, 0⟩⟩
            ⟨200, [("Content-Type", "text/plain")], .bytes [7]⟩ rd⟩)
        (fun _ _ _ => .ok ()) "t0" none
      = .ok ⟨"KeyError: last-modified", -1, 2, none, none, "bkt", "tpl",
             "t0"⟩ :=
  (missing_last_modified_is_exception
      ⟨⟨"http://host/file.zip", none, none⟩, ⟨2024, 3, 15, 0, 0, 0⟩⟩
      ⟨⟨"http://host/file.zip", none, none⟩, ⟨2024, 3, 15, 0, 0, 0⟩⟩
      ⟨200, [("Content-Type", "text/plain")], .bytes [7]⟩ none
      ⟨"tpl", "bkt", none⟩ (fun _ _ _ => .ok ()) "t0" 0
      rfl rfl).2.2

/-! ### C8-C9: reader-dispatch layer -/

/-- C8: `read_b3_bvbg086` returns the original parser data table — not
the locally coerced copy — so the 27 per-column coercions it computes
have no externally visible effect on the returned table. -/
theorem read_b3_bvbg086_returns_original_table
    (cache_path : String → String) (parserOf : String → BVBG086Parser)
    (meta : CacheMetadata) (fname : String)
    (hlast : (sortStrings meta.downloaded_files).getLast? = some fname) :
    (read_b3_bvbg086 cache_path parserOf meta).1
      = .ok (parserOf (cache_path fname)).data := by
  simp only [read_b3_bvbg086, hlast]

/-- Witness for the C8 theorem: a table whose `open_interest` column
holds the text "1500" comes back with the text cell intact — the numeric
coercion computed inside the function is discarded. -/
theorem read_b3_bvbg086_returns_original_table_witness :
    (read_b3_bvbg086 (fun s => s)
        (fun _ => ⟨[("open_interest", [CellValue.text "1500"])]⟩)
        ⟨["b.xml", "a.xml"]⟩).1
      = .ok [("open_interest", [CellValue.text "1500"])] :=
  read_b3_bvbg086_returns_original_table (fun s => s)
    (fun _ => ⟨[("open_interest", [CellValue.text "1500"])]⟩)
    ⟨["b.xml", "a.xml"]⟩ "b.xml" rfl

/-- C9: each of the five named readers leaves the CacheMetadata entry it
receives unchanged — the downloaded-files collection (contents and
order) after the call equals the one before. -/
theorem readers_leave_metadata_unchanged
    (meta : CacheMetadata) (cache_path : String → String)
    (p1 : String → COTAHISTParser) (p2 : String → BVBG028Parser)
    (p3 : String → BVBG086Parser) (p4 : String → CDIParser)
    (p5 : String → Table) :
    (read_b3_cotahist cache_path p1 meta).2 = meta
    ∧ (read_b3_bvbg028 cache_path p2 meta).2 = meta
    ∧ (read_b3_bvbg086 cache_path p3 meta).2 = meta
    ∧ (read_b3_cdi cache_path p4 meta).2 = meta
    ∧ (read_b3_futures_settlement_prices cache_path p5 meta).2 = meta
    ∧ (read_b3_bvbg086 cache_path p3 meta).2.downloaded_files
        = meta.downloaded_files := by
  obtain ⟨files⟩ := meta
  refine ⟨?_, ?_, ?_, ?_, ?_, ?_⟩
  · cases files <;> rfl
  · simp only [read_b3_bvbg028]
    split <;> rfl
  · simp only [read_b3_bvbg086]
    split <;> rfl
  · cases files <;> rfl
  · cases files <;> rfl
  · simp only [read_b3_bvbg086]
    split <;> rfl
